import Mathlib

/-
Verification development for the insurance e-mail processing functions:
the upload-notification handler (src/email_receiver/handler.py), the
mailbox list builder (src/inbox_lister/lambda_function.py) and the domain
refresh pipeline (src/valid_domains/lambda_fuction.py).

Python strings are modelled as lists of characters (`PyStr`), so that the
string operations the code uses (strip, lower, split, containment,
lexicographic comparison) are structurally recursive and evaluate inside
the kernel.  Python's `str.strip` / `str.lower` handle full Unicode while
the models below use `Char.isWhitespace` / `Char.toLower`; the difference
is immaterial for every input appearing in the claims.  Exceptions are
modelled as a structured inductive (`PyErr`), one constructor per raise
site, together with `errMsg`, which renders the exact message string each
site builds, and `errCode`, the leading machine-checkable "EAWSnnn" code
of that message.
-/

/-- Python strings, modelled as lists of characters. -/
abbrev PyStr := List Char

/-- Python `str.strip()`: remove whitespace from both ends. -/
def pyTrim (s : PyStr) : PyStr :=
  ((s.dropWhile Char.isWhitespace).reverse.dropWhile Char.isWhitespace).reverse

/-- Python `str.lower()` (ASCII case mapping). -/
def pyLower (s : PyStr) : PyStr :=
  s.map Char.toLower

/-- Python string `<=`: lexicographic comparison by code point. -/
def pyStrLe : PyStr → PyStr → Bool
  | [], _ => true
  | _ :: _, [] => false
  | a :: as, b :: bs => if a = b then pyStrLe as bs else decide (a < b)

/-- Python scalar values as they occur in the JSON-derived configuration
entries: strings, integers, booleans and `None`. -/
inductive Value where
  | vStr (s : PyStr)
  | vInt (n : Int)
  | vBool (b : Bool)
  | vNull
  deriving DecidableEq

/-- Python truth-value test (`not x`): empty string, `0`, `False` and
`None` are falsy. -/
def pyFalsy : Value → Bool
  | .vStr s => s.isEmpty
  | .vInt n => decide (n = 0)
  | .vBool b => !b
  | .vNull => true

/-- Python `str(...)` applied to a scalar value. -/
def pyStrOf : Value → PyStr
  | .vStr s => s
  | .vInt n => (toString n).toList
  | .vBool true => "True".toList
  | .vBool false => "False".toList
  | .vNull => "None".toList

/-
Upload Notification Handler (src/email_receiver/handler.py).

A record of the inbound event.  `bucketName` models
`record["s3"]["bucket"]["name"]` and `objectKey` models
`record["s3"]["object"]["key"]`; `none` means some level of the nested
lookup is missing, in which case the Python code raises `KeyError`,
caught by the handler's catch-all branch (statusCode 500).
-/
structure S3Record where
  eventSource : Option PyStr
  bucketName : Option PyStr
  objectKey : Option PyStr
  deriving DecidableEq

/-- The inbound event; `records` models the optional "Records" key. -/
structure S3Event where
  records : Option (List S3Record)
  deriving DecidableEq

/-- The `details` object of a success body (handler.py lines 62-67). -/
structure SuccessDetails where
  bucket : PyStr
  file : PyStr
  processed_at : PyStr
  next_step : PyStr
  deriving DecidableEq

/-- The JSON body of a handler response: either a failure body
`{error, [details]}` or the success body built at lines 59-68. -/
inductive RespBody where
  | failure (error : PyStr) (details : Option PyStr)
  | success (status message : PyStr) (details : SuccessDetails)
  deriving DecidableEq

/-- A handler response `{statusCode, body}`. -/
structure Response where
  statusCode : Nat
  body : RespBody
  deriving DecidableEq

namespace EmailReceiver

/-- The record loop of handler.py lines 39-83: scan records in order; for
the first one whose `eventSource` is "aws:s3" extract bucket and key
(missing sub-fields raise `KeyError`, producing the catch-all 500
response); records from any other source are skipped; if the sequence is
exhausted, return the 400 "No S3 events found" response. -/
def scanRecords : List S3Record → Response
  | [] => ⟨400, .failure "No S3 events found".toList none⟩
  | record :: rest =>
    if record.eventSource = some "aws:s3".toList then
      match record.bucketName, record.objectKey with
      | some bucket_name, some file_key =>
        ⟨200, .success "success".toList "Email received for processing".toList
          ⟨bucket_name, file_key, "2024-02-04".toList, "Send to extraction queue".toList⟩⟩
      | _, _ => ⟨500, .failure "Internal server error".toList (some "KeyError".toList)⟩
    else scanRecords rest

/-- handler.py `lambda_handler`: a 400 "Invalid event - no records"
response when the "Records" key is absent, otherwise the record scan. -/
def lambda_handler (event : S3Event) : Response :=
  match event.records with
  | none => ⟨400, .failure "Invalid event - no records".toList none⟩
  | some records => scanRecords records

end EmailReceiver

example :
    EmailReceiver.lambda_handler ⟨some [⟨some "aws:s3".toList, some "b".toList, some "k.pdf".toList⟩]⟩
      = ⟨200, .success "success".toList "Email received for processing".toList
          ⟨"b".toList, "k.pdf".toList, "2024-02-04".toList, "Send to extraction queue".toList⟩⟩ := by
  decide

example : EmailReceiver.lambda_handler ⟨none⟩
    = ⟨400, .failure "Invalid event - no records".toList none⟩ := by decide

example : EmailReceiver.lambda_handler ⟨some [⟨some "aws:sns".toList, none, none⟩]⟩
    = ⟨400, .failure "No S3 events found".toList none⟩ := by decide

example : EmailReceiver.lambda_handler ⟨some [⟨some "aws:s3".toList, none, none⟩]⟩
    = ⟨500, .failure "Internal server error".toList (some "KeyError".toList)⟩ := by decide

/-
Exceptions of the inbox lister and the domain refresh pipeline.  One
constructor per raise site; `errMsg` below renders the exact message each
site builds.  The wrapper constructors (`validationFailed`,
`fetchDomainsFailed`, `saveDomainsFailed`) model the broad
`except Exception as e: raise SystemException(f"...: {str(e)}")` blocks,
which catch anything raised inside the corresponding `try` — including
the function's own `SystemException` raises — and re-raise a new
exception whose message embeds `str(e)`.
-/
inductive PyErr where
  /-- lambda_function.py line 153: `EAWS012`, listing the missing fields. -/
  | schemaError (index : Nat) (missing : List PyStr)
  /-- lambda_function.py line 160: `EAWS015`, unsupported mailbox type. -/
  | unsupportedType (name : Value) (ty : PyStr)
  /-- lambda_function.py line 90: `EAWS009`, container neither dict nor list. -/
  | invalidFormat
  /-- lambda_function.py line 107: `EAWS010`, resolved mailbox list empty. -/
  | noMailboxesFound
  /-- lambda_function.py line 120: `EAWS011`, zero entries survived. -/
  | noValidMailboxes
  /-- lambda_function.py line 127: `EAWS009` wrapper around anything the
  `try` block of `validate_mailbox_configuration` raised. -/
  | validationFailed (inner : PyErr)
  /-- lambda_fuction.py line 169: `EAWS007`, database returned zero rows. -/
  | noDomainsFoundDB
  /-- lambda_fuction.py line 176: `EAWS007` wrapper around anything the
  `try` block of `fetch_valid_domains_from_database` raised. -/
  | fetchDomainsFailed (inner : PyErr)
  /-- lambda_fuction.py line 297: `EAWS007`, empty domain list at the
  persistence step. -/
  | noValidDomainsToSave
  /-- lambda_fuction.py line 324: `EAWS019` wrapper around anything the
  `try` block of `save_domains_to_s3` raised. -/
  | saveDomainsFailed (inner : PyErr)
  /-- An exception raised by an external collaborator call (S3, database);
  carries that exception's `str` rendering. -/
  | collaboratorError (msg : PyStr)
  /-- `AttributeError`: `.lower()` called on a truthy non-string value
  (lambda_function.py line 158). -/
  | attributeError
  /-- `TypeError`: unsupported comparison or iteration over a non-list. -/
  | typeError
  deriving DecidableEq

/-- Whether the exception is a `SystemException` (the only class caught by
the per-entry `except SystemException` at lambda_function.py line 115). -/
def isSystemExc : PyErr → Bool
  | .collaboratorError _ | .attributeError | .typeError => false
  | _ => true

/-- The exact message string each raise site builds (`str(e)` of the
exception the caller observes). -/
def errMsg : PyErr → PyStr
  | .schemaError index missing =>
    "EAWS012: Mailbox ".toList ++ (toString index).toList
      ++ " missing required fields: ".toList ++ List.intercalate ", ".toList missing
  | .unsupportedType name ty =>
    "EAWS015: Mailbox ".toList ++ pyStrOf name ++ " has unsupported type: ".toList ++ ty
  | .invalidFormat => "EAWS009: Invalid mailbox configuration format".toList
  | .noMailboxesFound => "EAWS010: No mailboxes found in configuration".toList
  | .noValidMailboxes => "EAWS011: No valid mailboxes found after validation".toList
  | .validationFailed inner =>
    "EAWS009: Mailbox configuration validation failed: ".toList ++ errMsg inner
  | .noDomainsFoundDB => "EAWS007: No Domains Found in DB.".toList
  | .fetchDomainsFailed inner =>
    "EAWS007: Failed to fetch domains from database: ".toList ++ errMsg inner
  | .noValidDomainsToSave => "EAWS007: No valid domains to save".toList
  | .saveDomainsFailed inner =>
    "EAWS019: Failed to save domains to S3: ".toList ++ errMsg inner
  | .collaboratorError msg => msg
  | .attributeError => "AttributeError".toList
  | .typeError => "TypeError".toList

/-- The machine-checkable "EAWSnnn" code an exception message starts
with; `none` for exceptions that are not `SystemException`s. -/
def errCode : PyErr → Option PyStr
  | .schemaError _ _ => some "EAWS012".toList
  | .unsupportedType _ _ => some "EAWS015".toList
  | .invalidFormat => some "EAWS009".toList
  | .noMailboxesFound => some "EAWS010".toList
  | .noValidMailboxes => some "EAWS011".toList
  | .validationFailed _ => some "EAWS009".toList
  | .noDomainsFoundDB => some "EAWS007".toList
  | .fetchDomainsFailed _ => some "EAWS007".toList
  | .noValidDomainsToSave => some "EAWS007".toList
  | .saveDomainsFailed _ => some "EAWS019".toList
  | .collaboratorError _ => none
  | .attributeError => none
  | .typeError => none

/-
Mailbox List Builder (src/inbox_lister/lambda_function.py).
-/

/-- A raw mailbox entry: one mapping of the configuration list,
restricted to the keys the code reads.  `none` means the key is absent. -/
structure RawMailbox where
  mailboxName : Option Value
  mailboxType : Option Value
  teamID : Option Value
  isActive : Option Value
  priority : Option Value
  processingLimit : Option Value
  retryCount : Option Value
  description : Option Value
  category : Option Value
  deriving DecidableEq

/-- A raw mailbox entry with every key absent. -/
def RawMailbox.empty : RawMailbox :=
  ⟨none, none, none, none, none, none, none, none, none⟩

/-- A normalized mailbox entry as built at lambda_function.py lines
170-180. -/
structure ValidatedMailbox where
  mailboxName : PyStr
  mailboxType : PyStr
  teamID : PyStr
  isActive : Value
  priority : Value
  processingLimit : Value
  retryCount : Value
  description : Value
  category : Value
  deriving DecidableEq

namespace InboxLister

/-- The `required_fields` list of lambda_function.py line 144. -/
def requiredFields : List PyStr :=
  ["mailboxName".toList, "mailboxType".toList, "teamID".toList]

/-- Key lookup on a raw mailbox entry (`field in mailbox`). -/
def rawGet (mailbox : RawMailbox) (field : PyStr) : Option Value :=
  if field = "mailboxName".toList then mailbox.mailboxName
  else if field = "mailboxType".toList then mailbox.mailboxType
  else if field = "teamID".toList then mailbox.teamID
  else if field = "isActive".toList then mailbox.isActive
  else if field = "priority".toList then mailbox.priority
  else if field = "processingLimit".toList then mailbox.processingLimit
  else if field = "retryCount".toList then mailbox.retryCount
  else if field = "description".toList then mailbox.description
  else if field = "category".toList then mailbox.category
  else none

/-- The per-field test of lambda_function.py line 149:
`field not in mailbox or not mailbox[field]`. -/
def fieldMissing (mailbox : RawMailbox) (field : PyStr) : Bool :=
  match rawGet mailbox field with
  | none => true
  | some v => pyFalsy v

/-- The `missing_fields` list built at lambda_function.py lines 147-150. -/
def missingFields (mailbox : RawMailbox) : List PyStr :=
  requiredFields.filter (fieldMissing mailbox)

/-- Python `value > 100` for a scalar value: defined for integers and
booleans (bool is an int subtype); raises `TypeError` otherwise. -/
def pyGtInt (v : Value) (k : Int) : Except PyErr Bool :=
  match v with
  | .vInt n => .ok (decide (k < n))
  | .vBool b => .ok (decide (k < (if b then (1 : Int) else 0)))
  | _ => .error .typeError

/-- Python `min(value, 100)`; only ever reached on an integer greater
than 100 (lambda_function.py line 185); the non-integer branch is
unreachable and returns the value unchanged to keep the model total. -/
def pyMinInt (v : Value) (k : Int) : Value :=
  match v with
  | .vInt n => .vInt (min n k)
  | x => x

/-- The defaulted record construction of lambda_function.py lines
170-180 (`validated_mailbox = \x7b...\x7d`): name and team are
`str(...).strip()`-ed, the normalized type is stored, and the optional
fields get their documented defaults. -/
def buildValidated (mailbox : RawMailbox) (nameV : Value) (mailbox_type : PyStr)
    (teamV : Value) : ValidatedMailbox :=
  { mailboxName := pyTrim (pyStrOf nameV)
    mailboxType := mailbox_type
    teamID := pyTrim (pyStrOf teamV)
    isActive := mailbox.isActive.getD (.vBool true)
    priority := mailbox.priority.getD (.vInt 5)
    processingLimit := mailbox.processingLimit.getD (.vInt 75)
    retryCount := mailbox.retryCount.getD (.vInt 3)
    description := mailbox.description.getD (.vStr [])
    category := mailbox.category.getD (.vStr "default".toList) }

/-- The processing-limit clamp of lambda_function.py lines 183-185:
`if validated["processingLimit"] > 100:` (a `TypeError` on a
non-numeric value) then `min(validated["processingLimit"], 100)`.
Upper bound only — there is no lower-bound branch in the source. -/
def clampProcessingLimit (validated : ValidatedMailbox) :
    Except PyErr ValidatedMailbox :=
  match pyGtInt validated.processingLimit 100 with
  | .error e => .error e
  | .ok true => .ok { validated with processingLimit := pyMinInt validated.processingLimit 100 }
  | .ok false => .ok validated

/-- Lines 157-187 of `_validate_single_mailbox`, after the required-field
check has passed: lowercase the type (`.lower()` on a truthy non-string
raises `AttributeError`), require "ops" or "claims" (else `EAWS015`),
build the defaulted record and clamp the processing limit. -/
def typeCheckAndBuild (mailbox : RawMailbox) : Except PyErr ValidatedMailbox :=
  match mailbox.mailboxName, mailbox.mailboxType, mailbox.teamID with
  | some nameV, some (.vStr tyS), some teamV =>
    if ¬ (pyLower tyS = "ops".toList ∨ pyLower tyS = "claims".toList) then
      .error (.unsupportedType nameV (pyLower tyS))
    else
      clampProcessingLimit (buildValidated mailbox nameV (pyLower tyS) teamV)
  | _, _, _ =>
    -- mailboxType present and truthy but not a string: `.lower()` raises
    -- AttributeError.  (Patterns with an absent name, type or team are
    -- unreachable when the required-field check has passed.)
    .error .attributeError

/-- lambda_function.py `_validate_single_mailbox` (lines 130-187): the
required-field check over `requiredFields` (any absent-or-falsy field →
`EAWS012` listing all of them), then the type check, record construction
and clamp of `typeCheckAndBuild`. -/
def validate_single_mailbox (mailbox : RawMailbox) (index : Nat) :
    Except PyErr ValidatedMailbox :=
  if (missingFields mailbox).isEmpty = false then
    .error (.schemaError index (missingFields mailbox))
  else
    typeCheckAndBuild mailbox

end InboxLister

/-- A value bound to one of the candidate mailbox-list keys of a
configuration mapping: a list of entries, JSON `null`, or some other
non-list value (only its truthiness matters before iteration over it
raises `TypeError`). -/
inductive ListVal where
  | list (l : List RawMailbox)
  | null
  | nonList (truthy : Bool)
  deriving DecidableEq

/-- The raw configuration container handed to
`validate_mailbox_configuration`: a JSON list, a JSON mapping (with the
four candidate keys the code probes, each optionally present), or a value
of any other type. -/
inductive MailboxConfig where
  | pyList (l : List RawMailbox)
  | pyDict (mailboxes inboxes boxes mailbox_list : Option ListVal)
  | otherType
  deriving DecidableEq

namespace InboxLister

/-- Mailbox-list resolution, lambda_function.py lines 92-104: a list
container is the list itself; on a mapping, the "mailboxes" key wins,
else the first present among "inboxes", "boxes", "mailbox_list" (in that
fixed order), else the initial empty list.  `none` for a container that
is neither (the code raised `EAWS009` at line 90 before this point). -/
def resolvedMailboxes : MailboxConfig → Option ListVal
  | .pyList l => some (.list l)
  | .pyDict mailboxes inboxes boxes mailbox_list =>
    some (match mailboxes with
      | some v => v
      | none =>
        match inboxes with
        | some v => v
        | none =>
          match boxes with
          | some v => v
          | none =>
            match mailbox_list with
            | some v => v
            | none => .list [])
  | .otherType => none

/-- Python truthiness of a resolved mailbox-list value
(`if not mailboxes` at lambda_function.py line 106). -/
def listValFalsy : ListVal → Bool
  | .list l => l.isEmpty
  | .null => true
  | .nonList truthy => !truthy

/-- The per-entry loop of lambda_function.py lines 110-117: validate each
entry; an entry failing with a `SystemException` is skipped; any other
exception escapes the loop (and is caught by the function's outer
handler). -/
def validateLoop : List RawMailbox → Nat → Except PyErr (List ValidatedMailbox)
  | [], _ => .ok []
  | mailbox :: rest, index =>
    match validate_single_mailbox mailbox index with
    | .ok v =>
      match validateLoop rest (index + 1) with
      | .ok vs => .ok (v :: vs)
      | .error e => .error e
    | .error e =>
      if isSystemExc e then validateLoop rest (index + 1) else .error e

/-- The body of the `try` block of `validate_mailbox_configuration`
(lambda_function.py lines 86-123): format check, list resolution, the
emptiness check (`EAWS010`), the per-entry loop, and the zero-survivors
check (`EAWS011`). -/
def validateMailboxesInner (config : MailboxConfig) :
    Except PyErr (List ValidatedMailbox) :=
  match resolvedMailboxes config with
  | none => .error .invalidFormat
  | some lv =>
    if listValFalsy lv then .error .noMailboxesFound
    else
      match lv with
      | .list l =>
        match validateLoop l 0 with
        | .error e => .error e
        | .ok vs => if vs.isEmpty then .error .noValidMailboxes else .ok vs
      | .null => .error .noMailboxesFound  -- unreachable: null is falsy
      | .nonList _ => .error .typeError    -- iterating a non-list raises

/-- lambda_function.py `validate_mailbox_configuration` (lines 72-127).
The `except Exception` at line 125 catches everything the `try` block
raised — including the function's own `EAWS009`/`EAWS010`/`EAWS011`
raises — and re-raises `EAWS009: Mailbox configuration validation
failed: {str(e)}`. -/
def validate_mailbox_configuration (config : MailboxConfig) :
    Except PyErr (List ValidatedMailbox) :=
  match validateMailboxesInner config with
  | .ok vs => .ok vs
  | .error e => .error (.validationFailed e)

/-- lambda_function.py `filter_mailboxes_by_team` (lines 190-216): an
absent, empty or sentinel "NO_TEAM_ID" filter returns the input
unchanged; otherwise keep exactly the entries whose `teamID` equals the
filter. -/
def filter_mailboxes_by_team (mailboxes : List ValidatedMailbox)
    (team_id_filter : Option PyStr) : List ValidatedMailbox :=
  match team_id_filter with
  | none => mailboxes
  | some f =>
    if f.isEmpty || f = "NO_TEAM_ID".toList then mailboxes
    else mailboxes.filter (fun mailbox => decide (mailbox.teamID = f))

/-- The integer meaning of a priority value under Python comparison:
integers are themselves, booleans are 0/1.  A string or `None` priority
would make Python's `sorted` raise `TypeError`; those branches are
unreachable under the integer-priority hypothesis of the sorting claim
and are mapped to 0 only to keep the comparison total. -/
def pyOrd : Value → Int
  | .vInt n => n
  | .vBool b => if b then 1 else 0
  | .vStr _ => 0
  | .vNull => 0

/-- The composite sort key comparison of lambda_function.py line 232:
`(x.get("priority", 5), x["mailboxName"])` compared as a Python tuple
(priority first, mailbox name as tiebreaker). -/
def mailboxLe (a b : ValidatedMailbox) : Bool :=
  decide (pyOrd a.priority < pyOrd b.priority) ||
    (decide (pyOrd a.priority = pyOrd b.priority) && pyStrLe a.mailboxName b.mailboxName)

/-- lambda_function.py `sort_mailboxes_by_priority` (lines 219-242):
Python's stable `sorted` under the composite key, modelled with the
stable `List.mergeSort`. -/
def sort_mailboxes_by_priority (mailboxes : List ValidatedMailbox) :
    List ValidatedMailbox :=
  mailboxes.mergeSort mailboxLe

end InboxLister

/-
Domain Refresh Pipeline (src/valid_domains/lambda_fuction.py).
-/

/-- One extracted domain entry as built by `process_domain_data`
(lambda_fuction.py lines 199-205), restricted to the fields the
validation step reads.  `fromAddr` models the "from" key (`from` is a
Lean keyword); the validation step reads it with `.get("from", "")`, so
it is optional here. -/
structure DomainEntry where
  id : PyStr
  fromAddr : Option PyStr
  category : PyStr
  is_active : Bool
  deriving DecidableEq

/-- A validated domain entry: the copy of the input entry plus the
metadata added at lambda_fuction.py lines 256-259. -/
structure ValidatedDomain where
  base : DomainEntry
  domain_part : PyStr
  is_valid_format : Bool
  deriving DecidableEq

/-- A database row and the column-name-to-index mapping, as returned by
the `run_stored_procedure` collaborator. -/
abbrev DbRow := List Value

/-- Column-name-to-index mapping of the database result. -/
abbrev ColumnMap := List (PyStr × Nat)

namespace ValidDomains

/-- Python `str.split(sep)` for a one-character separator.  The result is
always a non-empty list of pieces. -/
def pySplit (sep : Char) : PyStr → List PyStr
  | [] => [[]]
  | c :: rest =>
    let r := pySplit sep rest
    if c = sep then [] :: r
    else (c :: r.headD []) :: r.tail

/-- The suffix of a string strictly after the last occurrence of `sep`
(the whole string when `sep` does not occur).  This is the wording of the
specification for the domain part; `afterLast_eq_getLastD_pySplit` below
proves it coincides with the code's `split(sep)[-1]`. -/
def afterLast (sep : Char) : PyStr → PyStr
  | [] => []
  | c :: rest =>
    if rest.contains sep then afterLast sep rest
    else if c = sep then rest
    else c :: afterLast sep rest

/-- lambda_fuction.py `validate_and_filter_domains` (lines 219-274,

inner loop): drop an entry whose "from" value is empty or lacks "@", or
whose `split("@")[-1]` part is empty or lacks "."; otherwise keep a copy
extended with `domain_part` and `is_valid_format = True`, in input
order.  (Nothing in the loop can raise, so the function's broad
`except` wrapper is dead code and is not modelled.) -/
def validate_and_filter_domains : List DomainEntry → List ValidatedDomain
  | [] => []
  | domain :: rest =>
    -- email_from = domain.get("from", "")
    if (domain.fromAddr.getD []).isEmpty
        || !((domain.fromAddr.getD []).contains '@') then
      validate_and_filter_domains rest
    else
      -- domain_part = email_from.split("@")[-1]
      if ((pySplit '@' (domain.fromAddr.getD [])).getLastD []).isEmpty
          || !(((pySplit '@' (domain.fromAddr.getD [])).getLastD []).contains '.') then
        validate_and_filter_domains rest
      else
        ⟨domain, (pySplit '@' (domain.fromAddr.getD [])).getLastD [], true⟩
          :: validate_and_filter_domains rest

/-- lambda_fuction.py `fetch_valid_domains_from_database` (lines
140-176).  The database call is an injected collaborator; its outcome
(rows and column map, or an exception) is the argument.  The inner code
raises `EAWS007` on zero rows; the `except Exception` at line 174
catches everything the `try` block raised — including that `EAWS007` —
and re-raises `EAWS007: Failed to fetch domains from database:
{str(e)}`. -/
def fetch_valid_domains_from_database
    (dbResult : Except PyErr (List DbRow × ColumnMap)) :
    Except PyErr (List DbRow × ColumnMap) :=
  let inner : Except PyErr (List DbRow × ColumnMap) :=
    match dbResult with
    | .error e => .error e
    | .ok (rows, column_map) =>
      if rows.isEmpty then .error .noDomainsFoundDB else .ok (rows, column_map)
  match inner with
  | .ok x => .ok x
  | .error e => .error (.fetchDomainsFailed e)

/-- lambda_fuction.py `save_domains_to_s3` (lines 277-324).  The S3
upload is an injected collaborator; its outcome is the second argument.
The inner code raises `EAWS007` on an empty domain list; the
`except Exception` at line 322 catches everything the `try` block
raised — including that `EAWS007` — and re-raises `EAWS019: Failed to
save domains to S3: {str(e)}`. -/
def save_domains_to_s3 (domains : List ValidatedDomain)
    (uploadResult : Except PyErr Unit) : Except PyErr Unit :=
  let inner : Except PyErr Unit :=
    if domains.isEmpty then .error .noValidDomainsToSave else uploadResult
  match inner with
  | .ok _ => .ok ()
  | .error e => .error (.saveDomainsFailed e)

end ValidDomains

example :
    ValidDomains.validate_and_filter_domains
      [⟨"1".toList, some "sender@example.com".toList, "c".toList, true⟩,
       ⟨"2".toList, some "invalidemail".toList, "c".toList, true⟩,
       ⟨"3".toList, some "sender@localhost".toList, "c".toList, true⟩]
      = [⟨⟨"1".toList, some "sender@example.com".toList, "c".toList, true⟩,
          "example.com".toList, true⟩] := by decide

example :
    InboxLister.validate_mailbox_configuration
        (.pyDict (some (.list [])) none none none)
      = .error (.validationFailed .noMailboxesFound) := rfl

example :
    InboxLister.validate_mailbox_configuration (.pyList [RawMailbox.empty])
      = .error (.validationFailed .noValidMailboxes) := rfl

example :
    ValidDomains.save_domains_to_s3 [] (.ok ())
      = .error (.saveDomainsFailed .noValidDomainsToSave) := rfl


/-
Helper lemmas about the record scan.
-/

namespace EmailReceiver

/-- A record whose event source is not "aws:s3" is skipped: the scan of
the remaining records is unchanged. -/
theorem scanRecords_skip (r : S3Record) (rest : List S3Record)
    (h : r.eventSource ≠ some "aws:s3".toList) :
    scanRecords (r :: rest) = scanRecords rest := by
  simp only [scanRecords]
  rw [if_neg h]

/-- The scan stops at a matching record: everything after it is
irrelevant to the result. -/
theorem scanRecords_stop (pre : List S3Record) (r : S3Record)
    (rest rest2 : List S3Record) (h : r.eventSource = some "aws:s3".toList) :
    scanRecords (pre ++ r :: rest) = scanRecords (pre ++ r :: rest2) := by
  induction pre with
  | nil =>
    simp only [List.nil_append, scanRecords]
    rw [if_pos h, if_pos h]
  | cons p pre ih =>
    simp only [List.cons_append, scanRecords]
    by_cases hp : p.eventSource = some "aws:s3".toList
    · rw [if_pos hp, if_pos hp]
    · rw [if_neg hp, if_neg hp]
      exact ih

end EmailReceiver

/-- C3: for every event: if "Records" is absent the handler returns the
statusCode-400 MalformedEvent failure; otherwise it scans the records in
order and, at the first record whose eventSource is "aws:s3", immediately
returns the success response carrying that record's bucket name and
object key (the records after it are never examined); if no record
matches, it returns the statusCode-400 NoMatchingSource failure. -/
theorem C3_upload_handler_scan :
    (EmailReceiver.lambda_handler ⟨none⟩
      = ⟨400, .failure "Invalid event - no records".toList none⟩)
    ∧ (∀ (pre : List S3Record) (r : S3Record) (rest : List S3Record) (b k : PyStr),
        (∀ p ∈ pre, p.eventSource ≠ some "aws:s3".toList) →
        r.eventSource = some "aws:s3".toList →
        r.bucketName = some b → r.objectKey = some k →
        EmailReceiver.lambda_handler ⟨some (pre ++ r :: rest)⟩
          = ⟨200, .success "success".toList "Email received for processing".toList
              ⟨b, k, "2024-02-04".toList, "Send to extraction queue".toList⟩⟩)
    ∧ (∀ (pre : List S3Record) (r : S3Record) (rest rest2 : List S3Record),
        r.eventSource = some "aws:s3".toList →
        EmailReceiver.lambda_handler ⟨some (pre ++ r :: rest)⟩
          = EmailReceiver.lambda_handler ⟨some (pre ++ r :: rest2)⟩)
    ∧ (∀ rs : List S3Record,
        (∀ p ∈ rs, p.eventSource ≠ some "aws:s3".toList) →
        EmailReceiver.lambda_handler ⟨some rs⟩
          = ⟨400, .failure "No S3 events found".toList none⟩) := by
  refine ⟨rfl, ?_, ?_, ?_⟩
  · intro pre r rest b k hpre hsrc hb hk
    induction pre with
    | nil =>
      show EmailReceiver.scanRecords (r :: rest) = _
      simp only [EmailReceiver.scanRecords]
      rw [if_pos hsrc, hb, hk]
    | cons p pre ih =>
      show EmailReceiver.scanRecords ((p :: pre) ++ r :: rest) = _
      rw [List.cons_append,
        EmailReceiver.scanRecords_skip p _ (hpre p (List.mem_cons_self p pre))]
      exact ih fun q hq => hpre q (List.mem_cons_of_mem p hq)
  · intro pre r rest rest2 hsrc
    exact EmailReceiver.scanRecords_stop pre r rest rest2 hsrc
  · intro rs h
    induction rs with
    | nil => rfl
    | cons p rest ih =>
      show EmailReceiver.scanRecords (p :: rest) = _
      rw [EmailReceiver.scanRecords_skip p rest (h p (List.mem_cons_self p rest))]
      exact ih fun q hq => h q (List.mem_cons_of_mem p hq)

/-- Witness for C3 at concrete inputs: one non-matching record before the
matching one, a record after it, and a no-match event. -/
theorem C3_upload_handler_scan_witness :
    (EmailReceiver.lambda_handler
        ⟨some ([⟨some "aws:sns".toList, none, none⟩] ++
          ⟨some "aws:s3".toList, some "b".toList, some "k.pdf".toList⟩ ::
            [⟨some "aws:s3".toList, some "c".toList, some "x".toList⟩])⟩
      = ⟨200, .success "success".toList "Email received for processing".toList
          ⟨"b".toList, "k.pdf".toList, "2024-02-04".toList,
            "Send to extraction queue".toList⟩⟩)
    ∧ (EmailReceiver.lambda_handler ⟨some [⟨some "aws:sns".toList, none, none⟩]⟩
        = ⟨400, .failure "No S3 events found".toList none⟩) :=
  ⟨C3_upload_handler_scan.2.1 [⟨some "aws:sns".toList, none, none⟩]
      ⟨some "aws:s3".toList, some "b".toList, some "k.pdf".toList⟩
      [⟨some "aws:s3".toList, some "c".toList, some "x".toList⟩]
      "b".toList "k.pdf".toList (by decide) rfl rfl rfl,
    C3_upload_handler_scan.2.2.2 [⟨some "aws:sns".toList, none, none⟩] (by decide)⟩

/-- C9: a record whose eventSource key is absent or differs from "aws:s3"
never reaches the statusCode-500 InternalError branch: it is skipped and
the scan continues with the next record; a 500 response can only arise
from a record whose eventSource is "aws:s3". -/
theorem C9_nonmatching_record_never_500 :
    (∀ (r : S3Record) (rest : List S3Record),
        r.eventSource ≠ some "aws:s3".toList →
        EmailReceiver.scanRecords (r :: rest) = EmailReceiver.scanRecords rest)
    ∧ (∀ rs : List S3Record,
        (EmailReceiver.scanRecords rs).statusCode = 500 →
        ∃ r ∈ rs, r.eventSource = some "aws:s3".toList) := by
  constructor
  · exact EmailReceiver.scanRecords_skip
  · intro rs h
    induction rs with
    | nil => simp [EmailReceiver.scanRecords] at h
    | cons r rest ih =>
      by_cases hr : r.eventSource = some "aws:s3".toList
      · exact ⟨r, List.mem_cons_self r rest, hr⟩
      · rw [EmailReceiver.scanRecords_skip r rest hr] at h
        obtain ⟨q, hq, hq2⟩ := ih h
        exact ⟨q, List.mem_cons_of_mem r hq, hq2⟩

/-- Witness for C9: a record with no eventSource key is skipped, and a
500 response implies an S3-sourced record is present. -/
theorem C9_nonmatching_record_never_500_witness :
    (EmailReceiver.scanRecords
        [⟨none, some "b".toList, some "k".toList⟩,
          ⟨some "aws:s3".toList, some "b".toList, some "k".toList⟩]
      = EmailReceiver.scanRecords
          [⟨some "aws:s3".toList, some "b".toList, some "k".toList⟩])
    ∧ (∃ r ∈ [(⟨some "aws:s3".toList, none, none⟩ : S3Record)],
        r.eventSource = some "aws:s3".toList) :=
  ⟨C9_nonmatching_record_never_500.1 ⟨none, some "b".toList, some "k".toList⟩
      [⟨some "aws:s3".toList, some "b".toList, some "k".toList⟩] (by decide),
    C9_nonmatching_record_never_500.2 [⟨some "aws:s3".toList, none, none⟩] (by decide)⟩

/-- C10: every success response of the upload handler carries
details.processed_at equal to the fixed literal "2024-02-04", whatever
the event. -/
theorem C10_processed_at_fixed_literal :
    ∀ (event : S3Event) (c : Nat) (st msg : PyStr) (d : SuccessDetails),
      EmailReceiver.lambda_handler event = ⟨c, .success st msg d⟩ →
      d.processed_at = "2024-02-04".toList := by
  intro event c st msg d h
  obtain ⟨records⟩ := event
  cases records with
  | none => simp [EmailReceiver.lambda_handler] at h
  | some rs =>
    induction rs with
    | nil => simp [EmailReceiver.lambda_handler, EmailReceiver.scanRecords] at h
    | cons r rest ih =>
      by_cases hr : r.eventSource = some "aws:s3".toList
      · rcases hb : r.bucketName with _ | b <;> rcases hk : r.objectKey with _ | k <;>
          simp only [EmailReceiver.lambda_handler, EmailReceiver.scanRecords,
            if_pos hr, hb, hk] at h <;>
          simp only [Response.mk.injEq, RespBody.success.injEq] at h
        · exact absurd h.2 (by simp)
        · exact absurd h.2 (by simp)
        · exact absurd h.2 (by simp)
        · obtain ⟨-, -, -, hd⟩ := h
          rw [← hd]
      · have : EmailReceiver.lambda_handler ⟨some (r :: rest)⟩
            = EmailReceiver.lambda_handler ⟨some rest⟩ :=
          EmailReceiver.scanRecords_skip r rest hr
        rw [this] at h
        exact ih h

/-- Witness for C10 at a concrete matching event. -/
theorem C10_processed_at_fixed_literal_witness :
    (⟨"b".toList, "k.pdf".toList, "2024-02-04".toList,
        "Send to extraction queue".toList⟩ : SuccessDetails).processed_at
      = "2024-02-04".toList :=
  C10_processed_at_fixed_literal
    ⟨some [⟨some "aws:s3".toList, some "b".toList, some "k.pdf".toList⟩]⟩
    200 "success".toList "Email received for processing".toList
    ⟨"b".toList, "k.pdf".toList, "2024-02-04".toList,
      "Send to extraction queue".toList⟩ rfl

/-- C7: filtering by an absent, empty, or sentinel "NO_TEAM_ID" team
identifier returns the input unchanged; any other filter value keeps
exactly the entries whose teamID equals it, by case-sensitive exact
string comparison, in input order. -/
theorem C7_filter_by_team :
    ∀ (mailboxes : List ValidatedMailbox) (f : Option PyStr),
      ((f = none ∨ f = some [] ∨ f = some "NO_TEAM_ID".toList) →
        InboxLister.filter_mailboxes_by_team mailboxes f = mailboxes)
      ∧ (∀ s : PyStr, f = some s → s ≠ [] → s ≠ "NO_TEAM_ID".toList →
          InboxLister.filter_mailboxes_by_team mailboxes f
            = mailboxes.filter (fun mailbox => decide (mailbox.teamID = s))) := by
  intro mailboxes f
  constructor
  · rintro (rfl | rfl | rfl)
    · rfl
    · rfl
    · simp [InboxLister.filter_mailboxes_by_team]
  · rintro s rfl hs hs2
    simp only [InboxLister.filter_mailboxes_by_team]
    have hcond : ¬ ((s.isEmpty || decide (s = "NO_TEAM_ID".toList)) = true) := by
      simp only [Bool.or_eq_true, decide_eq_true_eq, List.isEmpty_iff]
      rintro (h | h)
      · exact hs h
      · exact hs2 h
    rw [if_neg hcond]

/-- Witness for C7 at concrete inputs: the sentinel returns the input
unchanged, a real team id keeps only the exact matches. -/
theorem C7_filter_by_team_witness :
    (InboxLister.filter_mailboxes_by_team
        [⟨"a".toList, "ops".toList, "team_001".toList, .vBool true, .vInt 5,
          .vInt 75, .vInt 3, .vStr [], .vStr "default".toList⟩]
        (some "NO_TEAM_ID".toList)
      = [⟨"a".toList, "ops".toList, "team_001".toList, .vBool true, .vInt 5,
          .vInt 75, .vInt 3, .vStr [], .vStr "default".toList⟩])
    ∧ (InboxLister.filter_mailboxes_by_team
        [⟨"a".toList, "ops".toList, "team_001".toList, .vBool true, .vInt 5,
          .vInt 75, .vInt 3, .vStr [], .vStr "default".toList⟩,
         ⟨"b".toList, "ops".toList, "team_002".toList, .vBool true, .vInt 5,
          .vInt 75, .vInt 3, .vStr [], .vStr "default".toList⟩]
        (some "team_002".toList)
      = List.filter (fun mailbox => decide (mailbox.teamID = "team_002".toList))
          [⟨"a".toList, "ops".toList, "team_001".toList, .vBool true, .vInt 5,
            .vInt 75, .vInt 3, .vStr [], .vStr "default".toList⟩,
           ⟨"b".toList, "ops".toList, "team_002".toList, .vBool true, .vInt 5,
            .vInt 75, .vInt 3, .vStr [], .vStr "default".toList⟩]) :=
  ⟨(C7_filter_by_team _ (some "NO_TEAM_ID".toList)).1 (by decide),
    (C7_filter_by_team _ (some "team_002".toList)).2 "team_002".toList rfl
      (by decide) (by decide)⟩

namespace InboxLister

/-- If the clamp stage succeeds, the output processing limit is the
clamped input field. -/
theorem clampProcessingLimit_pl (w v : ValidatedMailbox)
    (h : clampProcessingLimit w = .ok v) :
    ∃ b : Bool, pyGtInt w.processingLimit 100 = .ok b ∧
      v.processingLimit
        = (if b then pyMinInt w.processingLimit 100 else w.processingLimit) := by
  unfold clampProcessingLimit at h
  split at h
  · exact absurd h (by simp)
  · refine ⟨true, by assumption, ?_⟩
    obtain rfl : _ = v := Except.ok.inj h
    rfl
  · refine ⟨false, by assumption, ?_⟩
    obtain rfl : w = v := Except.ok.inj h
    rfl

/-- If single-entry validation succeeds, the output processing limit is
the defaulted input field, clamped. -/
theorem validate_single_ok_pl (m : RawMailbox) (idx : Nat) (v : ValidatedMailbox)
    (h : validate_single_mailbox m idx = .ok v) :
    ∃ b : Bool, pyGtInt (m.processingLimit.getD (.vInt 75)) 100 = .ok b ∧
      v.processingLimit
        = (if b then pyMinInt (m.processingLimit.getD (.vInt 75)) 100
           else m.processingLimit.getD (.vInt 75)) := by
  unfold validate_single_mailbox at h
  split at h
  · exact absurd h (by simp)
  · unfold typeCheckAndBuild at h
    split at h
    · split at h
      · exact absurd h (by simp)
      · exact clampProcessingLimit_pl _ v h
    · exact absurd h (by simp)

end InboxLister

/-- C4: for every raw entry on which single-entry validation succeeds,
the output processingLimit is 100 when the integer input exceeds 100,
the unchanged input otherwise (negative values included), and the
default 75 when the key is absent.  There is no lower-bound clamp. -/
theorem C4_processing_limit_upper_clamp_only :
    ∀ (m : RawMailbox) (idx : Nat) (v : ValidatedMailbox),
      InboxLister.validate_single_mailbox m idx = .ok v →
      ((∀ n : Int, m.processingLimit = some (.vInt n) →
          v.processingLimit = .vInt (if 100 < n then 100 else n))
       ∧ (m.processingLimit = none → v.processingLimit = .vInt 75)) := by
  intro m idx v h
  obtain ⟨b, hb, hv⟩ := InboxLister.validate_single_ok_pl m idx v h
  constructor
  · intro n hn
    rw [hn] at hb hv
    simp only [Option.getD_some, InboxLister.pyGtInt] at hb hv
    obtain rfl : decide ((100 : Int) < n) = b := Except.ok.inj hb
    by_cases hlt : (100 : Int) < n
    · have hd : decide ((100 : Int) < n) = true := by simpa using hlt
      rw [hv, if_pos hd, if_pos hlt]
      simp only [InboxLister.pyMinInt]
      rw [min_eq_right (le_of_lt hlt)]
    · have hd : decide ((100 : Int) < n) = false := by simpa using hlt
      rw [hv, if_neg (by simp [hd]), if_neg hlt]
  · intro hn
    rw [hn] at hb hv
    simp only [Option.getD_none, InboxLister.pyGtInt] at hb hv
    obtain rfl : decide ((100 : Int) < 75) = b := Except.ok.inj hb
    rw [hv]
    norm_num

/-- A raw entry with processingLimit 150 (clamped to 100). -/
def mboxPL150 : RawMailbox :=
  ⟨some (.vStr "a".toList), some (.vStr "ops".toList), some (.vStr "team_1".toList),
    none, none, some (.vInt 150), none, none, none⟩

/-- A raw entry with processingLimit -10 (passes through unchanged). -/
def mboxPLneg : RawMailbox :=
  ⟨some (.vStr "a".toList), some (.vStr "ops".toList), some (.vStr "team_1".toList),
    none, none, some (.vInt (-10)), none, none, none⟩

/-- A raw entry without a processingLimit key (defaults to 75). -/
def mboxPLnone : RawMailbox :=
  ⟨some (.vStr "a".toList), some (.vStr "ops".toList), some (.vStr "team_1".toList),
    none, none, none, none, none, none⟩

/-- The validated entry produced for `mboxPL150`. -/
def vboxPL (pl : Int) : ValidatedMailbox :=
  ⟨"a".toList, "ops".toList, "team_1".toList, .vBool true, .vInt 5,
    .vInt pl, .vInt 3, .vStr [], .vStr "default".toList⟩

/-- Witness for C4 at 150 (clamped), -10 (unchanged) and absent (75). -/
theorem C4_processing_limit_upper_clamp_only_witness :
    ((vboxPL 100).processingLimit = .vInt (if (100 : Int) < 150 then 100 else 150))
    ∧ ((vboxPL (-10)).processingLimit = .vInt (if (100 : Int) < -10 then 100 else -10))
    ∧ ((vboxPL 75).processingLimit = .vInt 75) :=
  ⟨(C4_processing_limit_upper_clamp_only mboxPL150 0 (vboxPL 100) rfl).1 150 rfl,
    (C4_processing_limit_upper_clamp_only mboxPLneg 0 (vboxPL (-10)) rfl).1 (-10) rfl,
    (C4_processing_limit_upper_clamp_only mboxPLnone 0 (vboxPL 75) rfl).2 rfl⟩

namespace InboxLister

/-- `pyGtInt` can only fail with a `TypeError`. -/
theorem pyGtInt_error (v : Value) (k : Int) (e : PyErr)
    (h : pyGtInt v k = .error e) : e = .typeError := by
  unfold pyGtInt at h
  split at h
  · exact absurd h (by simp)
  · exact absurd h (by simp)
  · exact (Except.error.inj h).symm

/-- The clamp stage never fails with a schema error. -/
theorem clampProcessingLimit_no_schema (w : ValidatedMailbox) (i : Nat)
    (miss : List PyStr) :
    clampProcessingLimit w ≠ .error (.schemaError i miss) := by
  intro h
  unfold clampProcessingLimit at h
  split at h
  · rename_i e he
    obtain rfl : e = _ := Except.error.inj h
    exact absurd (pyGtInt_error _ _ _ he) (by simp)
  · exact absurd h (by simp)
  · exact absurd h (by simp)

/-- The post-schema stage never fails with a schema error. -/
theorem typeCheckAndBuild_no_schema (m : RawMailbox) (i : Nat)
    (miss : List PyStr) :
    typeCheckAndBuild m ≠ .error (.schemaError i miss) := by
  intro h
  unfold typeCheckAndBuild at h
  split at h
  · split at h
    · exact absurd (Except.error.inj h) (by simp)
    · exact clampProcessingLimit_no_schema _ i miss h
  · exact absurd (Except.error.inj h) (by simp)

/-- With a non-empty missing-field list, validation fails with the schema
error listing it. -/
theorem validate_single_schema (m : RawMailbox) (idx : Nat)
    (hm : missingFields m ≠ []) :
    validate_single_mailbox m idx = .error (.schemaError idx (missingFields m)) := by
  unfold validate_single_mailbox
  rw [if_pos]
  cases hl : (missingFields m).isEmpty with
  | true => exact absurd (List.isEmpty_iff.mp hl) hm
  | false => rfl

/-- With an empty missing-field list, validation proceeds to the
post-schema stage. -/
theorem validate_single_no_missing (m : RawMailbox) (idx : Nat)
    (hm : missingFields m = []) :
    validate_single_mailbox m idx = typeCheckAndBuild m := by
  unfold validate_single_mailbox
  rw [if_neg]
  rw [hm]
  simp

end InboxLister

/-- C8: single-entry validation fails with a SchemaError exactly when at
least one of the required fields (mailboxName, mailboxType, teamID) is
absent or falsy, and such a failure names exactly the list of all those
fields, not only the first. -/
theorem C8_schema_error_names_all_missing :
    ∀ (m : RawMailbox) (idx : Nat),
      ((∃ i miss, InboxLister.validate_single_mailbox m idx
          = .error (.schemaError i miss))
        ↔ ∃ f ∈ InboxLister.requiredFields, InboxLister.fieldMissing m f = true)
      ∧ (∀ i miss, InboxLister.validate_single_mailbox m idx
            = .error (.schemaError i miss) →
          i = idx ∧ miss = InboxLister.missingFields m)
      ∧ (∀ f, f ∈ InboxLister.missingFields m
          ↔ f ∈ InboxLister.requiredFields ∧ InboxLister.fieldMissing m f = true) := by
  intro m idx
  by_cases hm : InboxLister.missingFields m = []
  · refine ⟨⟨?_, ?_⟩, ?_, ?_⟩
    · rintro ⟨i, miss, h⟩
      rw [InboxLister.validate_single_no_missing m idx hm] at h
      exact absurd h (InboxLister.typeCheckAndBuild_no_schema m i miss)
    · rintro ⟨f, hf, hmiss⟩
      have : f ∈ InboxLister.missingFields m :=
        List.mem_filter.mpr ⟨hf, hmiss⟩
      rw [hm] at this
      exact absurd this (List.not_mem_nil f)
    · intro i miss h
      rw [InboxLister.validate_single_no_missing m idx hm] at h
      exact absurd h (InboxLister.typeCheckAndBuild_no_schema m i miss)
    · intro f
      exact List.mem_filter
  · refine ⟨⟨?_, ?_⟩, ?_, ?_⟩
    · intro _
      obtain ⟨f, hf⟩ := List.exists_mem_of_ne_nil _ hm
      obtain ⟨h1, h2⟩ := List.mem_filter.mp hf
      exact ⟨f, h1, h2⟩
    · intro _
      exact ⟨idx, InboxLister.missingFields m,
        InboxLister.validate_single_schema m idx hm⟩
    · intro i miss h
      rw [InboxLister.validate_single_schema m idx hm] at h
      have := Except.error.inj h
      exact ⟨(PyErr.schemaError.injEq _ _ _ _).mp this.symm |>.1,
        ((PyErr.schemaError.injEq _ _ _ _).mp this.symm).2⟩
    · intro f
      exact List.mem_filter

/-- A raw entry whose mailboxType key is absent and whose teamID is the
empty string (falsy): both count as missing. -/
def mboxMissing : RawMailbox :=
  ⟨some (.vStr "a".toList), none, some (.vStr []), none, none, none, none, none, none⟩

/-- Witness for C8: the entry above fails with the schema error naming
exactly mailboxType and teamID, in required-field order. -/
theorem C8_schema_error_names_all_missing_witness :
    (∃ i miss, InboxLister.validate_single_mailbox mboxMissing 0
      = .error (.schemaError i miss))
    ∧ (0 = 0 ∧ ["mailboxType".toList, "teamID".toList]
        = InboxLister.missingFields mboxMissing) :=
  ⟨(C8_schema_error_names_all_missing mboxMissing 0).1.mpr
      ⟨"mailboxType".toList, by decide, by decide⟩,
    (C8_schema_error_names_all_missing mboxMissing 0).2.1 0
      ["mailboxType".toList, "teamID".toList] rfl⟩

/-- C1 counterexample: on the configuration whose "mailboxes" key holds
an empty list, `validate_mailbox_configuration` does not let the caller
observe the `EAWS010` NoMailboxesFound kind unchanged: the broad
exception handler catches it and re-raises an `EAWS009`-coded wrapper. -/
theorem C1_kind_not_observed_unchanged :
    InboxLister.validate_mailbox_configuration
        (.pyDict (some (.list [])) none none none)
      = .error (.validationFailed .noMailboxesFound)
    ∧ errCode (.validationFailed .noMailboxesFound) = some "EAWS009".toList
    ∧ errCode (.validationFailed .noMailboxesFound) ≠ errCode PyErr.noMailboxesFound
    ∧ (PyErr.validationFailed .noMailboxesFound) ≠ PyErr.noMailboxesFound :=
  ⟨rfl, rfl, by decide, by decide⟩

/-- C1 (amended): with an empty (or null, or falsy) resolved mailbox
list, collection validation raises `EAWS010` NoMailboxesFound, and with a
non-empty list none of whose entries survives it raises `EAWS011`
NoValidMailboxes — but in both cases the function's own broad exception
handler catches the raise, and what the caller observes is an
`EAWS009`-coded "Mailbox configuration validation failed" wrapper whose
message embeds the original message. -/
theorem C1_collection_validation_error_kinds :
    (∀ (cfg : MailboxConfig) (lv : ListVal),
        InboxLister.resolvedMailboxes cfg = some lv →
        InboxLister.listValFalsy lv = true →
        InboxLister.validate_mailbox_configuration cfg
          = .error (.validationFailed .noMailboxesFound))
    ∧ (∀ (cfg : MailboxConfig) (l : List RawMailbox),
        InboxLister.resolvedMailboxes cfg = some (.list l) →
        l ≠ [] →
        InboxLister.validateLoop l 0 = .ok [] →
        InboxLister.validate_mailbox_configuration cfg
          = .error (.validationFailed .noValidMailboxes))
    ∧ errMsg (.validationFailed .noMailboxesFound)
        = "EAWS009: Mailbox configuration validation failed: ".toList
            ++ errMsg PyErr.noMailboxesFound
    ∧ errMsg (.validationFailed .noValidMailboxes)
        = "EAWS009: Mailbox configuration validation failed: ".toList
            ++ errMsg PyErr.noValidMailboxes := by
  refine ⟨?_, ?_, rfl, rfl⟩
  · intro cfg lv h1 h2
    simp only [InboxLister.validate_mailbox_configuration,
      InboxLister.validateMailboxesInner, h1]
    rw [if_pos h2]
  · intro cfg l h1 h2 h3
    have hf : InboxLister.listValFalsy (.list l) = false := by
      simp [InboxLister.listValFalsy, h2]
    simp only [InboxLister.validate_mailbox_configuration,
      InboxLister.validateMailboxesInner, h1]
    rw [if_neg (by simp [hf]), h3]
    rfl

/-- Witness for the amended C1: a configuration whose first candidate
key holds null, and a one-entry list whose entry fails validation. -/
theorem C1_collection_validation_error_kinds_witness :
    InboxLister.validate_mailbox_configuration (.pyDict none (some .null) none none)
      = .error (.validationFailed .noMailboxesFound)
    ∧ InboxLister.validate_mailbox_configuration (.pyList [RawMailbox.empty])
      = .error (.validationFailed .noValidMailboxes) :=
  ⟨C1_collection_validation_error_kinds.1 _ .null rfl rfl,
    C1_collection_validation_error_kinds.2.1 _ [RawMailbox.empty] rfl
      (by decide) rfl⟩

/-- C2 counterexample: with an empty validated-domain list at the
persistence step, the caller does not observe the `EAWS007`
NoDomainsFound kind: the broad exception handler of `save_domains_to_s3`
catches the inner `EAWS007` raise and re-raises an `EAWS019`-coded
wrapper (DomainSaveFailed). -/
theorem C2_save_kind_is_wrapped :
    ValidDomains.save_domains_to_s3 [] (.ok ())
      = .error (.saveDomainsFailed .noValidDomainsToSave)
    ∧ errCode (.saveDomainsFailed .noValidDomainsToSave) = some "EAWS019".toList
    ∧ errCode (.saveDomainsFailed .noValidDomainsToSave) ≠ some "EAWS007".toList
    ∧ (PyErr.saveDomainsFailed .noValidDomainsToSave) ≠ PyErr.noValidDomainsToSave :=
  ⟨rfl, rfl, by decide, by decide⟩

/-- C2 (amended): the pipeline fails at exactly the two claimed
checkpoints, but the kinds the caller observes differ: at the database
checkpoint the zero-row raise is re-wrapped with the same `EAWS007`
code, so the caller still observes NoDomainsFound; at the persistence
checkpoint the inner `EAWS007` raise is re-wrapped as `EAWS019`
(DomainSaveFailed), whose message merely embeds the `EAWS007` text. -/
theorem C2_domain_checkpoint_kinds :
    (∀ cm : ColumnMap,
        ValidDomains.fetch_valid_domains_from_database (.ok ([], cm))
          = .error (.fetchDomainsFailed .noDomainsFoundDB))
    ∧ errCode (.fetchDomainsFailed .noDomainsFoundDB) = some "EAWS007".toList
    ∧ errMsg (.fetchDomainsFailed .noDomainsFoundDB)
        = "EAWS007: Failed to fetch domains from database: ".toList
            ++ errMsg PyErr.noDomainsFoundDB
    ∧ (∀ uploadResult : Except PyErr Unit,
        ValidDomains.save_domains_to_s3 [] uploadResult
          = .error (.saveDomainsFailed .noValidDomainsToSave))
    ∧ errCode (.saveDomainsFailed .noValidDomainsToSave) = some "EAWS019".toList
    ∧ errMsg (.saveDomainsFailed .noValidDomainsToSave)
        = "EAWS019: Failed to save domains to S3: ".toList
            ++ errMsg PyErr.noValidDomainsToSave :=
  ⟨fun _ => rfl, rfl, rfl, fun _ => rfl, rfl, rfl⟩

namespace ValidDomains

/-- Splitting always yields at least one piece. -/
theorem pySplit_ne_nil (sep : Char) (l : PyStr) : pySplit sep l ≠ [] := by
  cases l with
  | nil => simp [pySplit]
  | cons c rest =>
    simp only [pySplit]
    split <;> simp

/-- Splitting a string without the separator yields the string itself. -/
theorem pySplit_of_not_contains (sep : Char) (l : PyStr)
    (h : l.contains sep = false) : pySplit sep l = [l] := by
  induction l with
  | nil => rfl
  | cons c rest ih =>
    rw [List.contains_cons] at h
    obtain ⟨h1, h2⟩ := Bool.or_eq_false_iff.mp h
    have hc : ¬ c = sep := by
      intro hcc
      rw [hcc] at h1
      simp at h1
    simp only [pySplit, ih h2]
    rw [if_neg hc]
    rfl

/-- Splitting a string containing the separator yields at least two
pieces. -/
theorem pySplit_of_contains (sep : Char) (l : PyStr)
    (h : l.contains sep = true) :
    ∃ a t, pySplit sep l = a :: t ∧ t ≠ [] := by
  induction l with
  | nil => simp at h
  | cons c rest ih =>
    by_cases hc : c = sep
    · exact ⟨[], pySplit sep rest, by simp [pySplit, hc], pySplit_ne_nil sep rest⟩
    · rw [List.contains_cons] at h
      have h2 : rest.contains sep = true := by
        rcases Bool.or_eq_true_iff.mp h with h1 | h1
        · exact absurd (beq_iff_eq.mp h1).symm hc
        · exact h1
      obtain ⟨a, t, ht, htne⟩ := ih h2
      refine ⟨c :: a, t, ?_, htne⟩
      simp only [pySplit, ht]
      rw [if_neg hc]
      rfl

/-- Without the separator, the suffix after its last occurrence is the
whole string. -/
theorem afterLast_of_not_contains (sep : Char) (l : PyStr)
    (h : l.contains sep = false) : afterLast sep l = l := by
  induction l with
  | nil => rfl
  | cons c rest ih =>
    rw [List.contains_cons] at h
    obtain ⟨h1, h2⟩ := Bool.or_eq_false_iff.mp h
    have hc : ¬ c = sep := by
      intro hcc
      rw [hcc] at h1
      simp at h1
    simp only [afterLast]
    rw [if_neg (by rw [h2]; simp), if_neg hc, ih h2]

/-- The default of `getLastD` is irrelevant on a non-empty list. -/
theorem getLastD_of_ne_nil {α : Type} (l : List α) (h : l ≠ []) (a b : α) :
    l.getLastD a = l.getLastD b := by
  cases l with
  | nil => exact absurd rfl h
  | cons x xs => rw [List.getLastD_cons, List.getLastD_cons]

/-- The last piece of the split is exactly the suffix after the last
occurrence of the separator: the code's `split(sep)[-1]` and the
specification's "substring after the last `sep`" agree. -/
theorem getLastD_pySplit (sep : Char) (l : PyStr) :
    (pySplit sep l).getLastD [] = afterLast sep l := by
  induction l with
  | nil => rfl
  | cons c rest ih =>
    simp only [pySplit, afterLast]
    by_cases hr : rest.contains sep = true
    · rw [if_pos hr]
      by_cases hc : c = sep
      · rw [if_pos hc, List.getLastD_cons]
        exact ih
      · rw [if_neg hc]
        obtain ⟨a, t, ht, htne⟩ := pySplit_of_contains sep rest hr
        rw [ht]
        simp only [List.headD_cons, List.tail_cons, List.getLastD_cons]
        rw [getLastD_of_ne_nil t htne (c :: a) a]
        rw [ht, List.getLastD_cons] at ih
        exact ih
    · have hr2 : rest.contains sep = false := by simpa using hr
      rw [if_neg hr, pySplit_of_not_contains sep rest hr2]
      by_cases hc : c = sep
      · subst hc
        rw [if_pos rfl, if_pos rfl, List.getLastD_cons, List.getLastD_cons]
        rfl
      · rw [if_neg hc, if_neg hc]
        simp only [List.headD_cons, List.tail_cons, List.getLastD_cons]
        rw [afterLast_of_not_contains sep rest hr2]
        rfl

/-- The drop condition exactly as the specification words it: the
from-value is empty or lacks "@", or the substring after the last "@"
is empty or lacks ".". -/
def specDropDomain (d : DomainEntry) : Bool :=
  ((d.fromAddr.getD []).isEmpty || !((d.fromAddr.getD []).contains '@'))
    || ((afterLast '@' (d.fromAddr.getD [])).isEmpty
        || !((afterLast '@' (d.fromAddr.getD [])).contains '.'))

end ValidDomains

/-- C5: domain validation drops exactly the entries matching the
specification's drop condition (from-value empty or without "@", or the
substring after the last "@" empty or without "."); every survivor is
kept in input order and gains that substring as domain_part together
with is_valid_format = true. -/
theorem C5_domain_validation_filter :
    ∀ entries : List DomainEntry,
      ValidDomains.validate_and_filter_domains entries
        = (entries.filter fun d => !(ValidDomains.specDropDomain d)).map
            fun d => ⟨d, ValidDomains.afterLast '@' (d.fromAddr.getD []), true⟩ := by
  intro entries
  induction entries with
  | nil => rfl
  | cons d rest ih =>
    simp only [ValidDomains.validate_and_filter_domains,
      ValidDomains.getLastD_pySplit, List.filter_cons]
    by_cases h1 : ((d.fromAddr.getD []).isEmpty
        || !((d.fromAddr.getD []).contains '@')) = true
    · rw [if_pos h1]
      have hd : (!(ValidDomains.specDropDomain d)) = false := by
        simp only [ValidDomains.specDropDomain, h1, Bool.true_or, Bool.not_true]
      rw [hd]
      simp only [Bool.false_eq_true, if_neg, ite_false]
      exact ih
    · rw [if_neg h1]
      by_cases h2 : ((ValidDomains.afterLast '@' (d.fromAddr.getD [])).isEmpty
          || !((ValidDomains.afterLast '@' (d.fromAddr.getD [])).contains '.')) = true
      · rw [if_pos h2]
        have hd : (!(ValidDomains.specDropDomain d)) = false := by
          simp only [ValidDomains.specDropDomain, h2, Bool.or_true, Bool.not_true]
        rw [hd]
        simp only [Bool.false_eq_true, if_neg, ite_false]
        exact ih
      · rw [if_neg h2]
        have hd : (!(ValidDomains.specDropDomain d)) = true := by
          have g1 : ((d.fromAddr.getD []).isEmpty
              || !((d.fromAddr.getD []).contains '@')) = false := by simpa using h1
          have g2 : ((ValidDomains.afterLast '@' (d.fromAddr.getD [])).isEmpty
              || !((ValidDomains.afterLast '@' (d.fromAddr.getD [])).contains '.')) = false := by
            simpa using h2
          simp only [ValidDomains.specDropDomain, g1, g2, Bool.or_false, Bool.not_false]
        rw [hd]
        simp only [if_pos, List.map_cons]
        rw [ih]

/-- Python string comparison is total. -/
theorem pyStrLe_total : ∀ a b : PyStr, (pyStrLe a b || pyStrLe b a) = true := by
  intro a
  induction a with
  | nil => intro b; simp [pyStrLe]
  | cons x xs ih =>
    intro b
    cases b with
    | nil => simp [pyStrLe]
    | cons y ys =>
      simp only [pyStrLe]
      by_cases hxy : x = y
      · rw [if_pos hxy, if_pos hxy.symm]
        exact ih ys
      · rw [if_neg hxy, if_neg (fun h => hxy h.symm)]
        rcases lt_or_gt_of_ne hxy with h | h
        · simp [h]
        · simp [h]

/-- Python string comparison is transitive. -/
theorem pyStrLe_trans : ∀ a b c : PyStr,
    pyStrLe a b = true → pyStrLe b c = true → pyStrLe a c = true := by
  intro a
  induction a with
  | nil => intro b c _ _; simp [pyStrLe]
  | cons x xs ih =>
    intro b c h1 h2
    cases b with
    | nil => simp [pyStrLe] at h1
    | cons y ys =>
      cases c with
      | nil => simp [pyStrLe] at h2
      | cons z zs =>
        simp only [pyStrLe] at h1 h2 ⊢
        by_cases hxy : x = y
        · rw [if_pos hxy] at h1
          by_cases hyz : y = z
          · rw [if_pos hyz] at h2
            rw [if_pos (hxy.trans hyz)]
            exact ih ys zs h1 h2
          · rw [if_neg hyz] at h2
            have hz : y < z := of_decide_eq_true h2
            have hxz : x < z := hxy ▸ hz
            rw [if_neg (ne_of_lt hxz)]
            exact decide_eq_true hxz
        · rw [if_neg hxy] at h1
          have hx : x < y := of_decide_eq_true h1
          by_cases hyz : y = z
          · have hxz : x < z := hyz ▸ hx
            rw [if_neg (ne_of_lt hxz)]
            exact decide_eq_true hxz
          · rw [if_neg hyz] at h2
            have hy : y < z := of_decide_eq_true h2
            have hxz : x < z := lt_trans hx hy
            rw [if_neg (ne_of_lt hxz)]
            exact decide_eq_true hxz

namespace InboxLister

/-- The composite key comparison is total. -/
theorem mailboxLe_total : ∀ a b : ValidatedMailbox,
    (mailboxLe a b || mailboxLe b a) = true := by
  intro a b
  simp only [mailboxLe, Bool.or_eq_true, Bool.and_eq_true, decide_eq_true_eq]
  rcases lt_trichotomy (pyOrd a.priority) (pyOrd b.priority) with h | h | h
  · exact Or.inl (Or.inl h)
  · rcases Bool.or_eq_true_iff.mp (pyStrLe_total a.mailboxName b.mailboxName) with hs | hs
    · exact Or.inl (Or.inr ⟨h, hs⟩)
    · exact Or.inr (Or.inr ⟨h.symm, hs⟩)
  · exact Or.inr (Or.inl h)

/-- The composite key comparison is transitive. -/
theorem mailboxLe_trans : ∀ a b c : ValidatedMailbox,
    mailboxLe a b = true → mailboxLe b c = true → mailboxLe a c = true := by
  intro a b c h1 h2
  simp only [mailboxLe, Bool.or_eq_true, Bool.and_eq_true, decide_eq_true_eq] at h1 h2 ⊢
  rcases h1 with h1 | ⟨h1, hs1⟩
  · rcases h2 with h2 | ⟨h2, _⟩
    · exact Or.inl (lt_trans h1 h2)
    · exact Or.inl (h2 ▸ h1)
  · rcases h2 with h2 | ⟨h2, hs2⟩
    · exact Or.inl (h1 ▸ h2)
    · exact Or.inr ⟨h1.trans h2, pyStrLe_trans _ _ _ hs1 hs2⟩

end InboxLister

/-- C6: sorting returns a permutation of the input that is in
non-decreasing order of the composite key — priority ascending, with the
mailbox name as an ascending lexicographic tiebreaker — whenever every
priority is an integer (as Python's tuple comparison requires). -/
theorem C6_sort_by_priority_key :
    ∀ l : List ValidatedMailbox,
      (∀ m ∈ l, ∃ n : Int, m.priority = .vInt n) →
      (InboxLister.sort_mailboxes_by_priority l).Perm l
      ∧ List.Pairwise (fun a b =>
          InboxLister.pyOrd a.priority < InboxLister.pyOrd b.priority
          ∨ (InboxLister.pyOrd a.priority = InboxLister.pyOrd b.priority
             ∧ pyStrLe a.mailboxName b.mailboxName = true))
        (InboxLister.sort_mailboxes_by_priority l) := by
  intro l _
  constructor
  · exact List.mergeSort_perm l _
  · have hp := @List.sorted_mergeSort ValidatedMailbox InboxLister.mailboxLe
      (fun a b c => InboxLister.mailboxLe_trans a b c)
      (fun a b => InboxLister.mailboxLe_total a b) l
    refine hp.imp ?_
    intro a b hab
    simpa only [InboxLister.mailboxLe, Bool.or_eq_true, Bool.and_eq_true,
      decide_eq_true_eq] using hab

/-- A validated mailbox with the given name, priority 5 and defaults. -/
def vboxNamed (nm : PyStr) : ValidatedMailbox :=
  ⟨nm, "ops".toList, "team_1".toList, .vBool true, .vInt 5, .vInt 75,
    .vInt 3, .vStr [], .vStr "default".toList⟩

/-- Witness for C6 at the specification's tie-breaking example list
(zulu, alpha, bravo — all priority 5). -/
theorem C6_sort_by_priority_key_witness :
    (InboxLister.sort_mailboxes_by_priority
        [vboxNamed "zulu".toList, vboxNamed "alpha".toList, vboxNamed "bravo".toList]).Perm
      [vboxNamed "zulu".toList, vboxNamed "alpha".toList, vboxNamed "bravo".toList]
    ∧ List.Pairwise (fun a b =>
        InboxLister.pyOrd a.priority < InboxLister.pyOrd b.priority
        ∨ (InboxLister.pyOrd a.priority = InboxLister.pyOrd b.priority
           ∧ pyStrLe a.mailboxName b.mailboxName = true))
      (InboxLister.sort_mailboxes_by_priority
        [vboxNamed "zulu".toList, vboxNamed "alpha".toList, vboxNamed "bravo".toList]) :=
  C6_sort_by_priority_key
    [vboxNamed "zulu".toList, vboxNamed "alpha".toList, vboxNamed "bravo".toList]
    (by
      intro m hm
      simp only [List.mem_cons, List.not_mem_nil, or_false] at hm
      rcases hm with rfl | rfl | rfl
      · exact ⟨5, rfl⟩
      · exact ⟨5, rfl⟩
      · exact ⟨5, rfl⟩)

example :
    InboxLister.sort_mailboxes_by_priority
        [vboxNamed "zulu".toList, vboxNamed "alpha".toList, vboxNamed "bravo".toList]
      = [vboxNamed "alpha".toList, vboxNamed "bravo".toList, vboxNamed "zulu".toList] := by
  simp [InboxLister.sort_mailboxes_by_priority, List.mergeSort, vboxNamed,
    InboxLister.mailboxLe, InboxLister.pyOrd, pyStrLe]
